import Mathlib

/-!
Shallow embedding of `linksys_mon.py`, a command-line utility that lists the
devices known to a Linksys router and reports which are online.

The embedding covers the pure core of the program:

* the data model (`Model`, `Unit`, `Interface`, `Connection`, `Property`,
  `Device`, `DeviceStatus`) declared as pydantic `BaseModel` classes in the
  source;
* JSON parsing and validation of device records (`parse_device`,
  `get_devices`' list comprehension), modelled over an explicit `Json` tree
  with pydantic's default lax validation: required fields must be present
  with the declared type or a value pydantic coerces to it, `Optional`
  fields default to `none` (accepting an explicit JSON `null`), and unknown
  fields are ignored;
* `filter_devices` (friendly-name substring filter and MAC equality filter,
  including Python's truthiness test on the optional string arguments);
* `get_device_status` (the online/offline reconciliation against the set of
  online MAC addresses);
* the pipeline of `main`: the 36-character-with-hyphen friendly-name drop
  rule, filtering, reconciliation, the online/offline split, and the boolean
  section-selection logic of the `--online`/`--offline` flags.

Python strings are modelled as Lean `String`; `str.lower`/`str.upper` are
modelled by mapping the ASCII case conversion over the characters
(`str_lower`/`str_upper`; the strings involved — MAC addresses and names —
are treated as the source treats them).  The Python `set` of online MACs is
modelled as a `Finset String`.  HTTP fetching, argument parsing and printing
are outside the embedding.
-/

namespace LinksysMon

/-- JSON values as delivered by the router API.  Numbers are modelled as
integers: every numeric field of the device schema (`lastChangeRevision`,
`maxAllowedProperties`) is an integer. -/
inductive Json where
  | null : Json
  | bool (b : Bool) : Json
  | int (n : Int) : Json
  | str (s : String) : Json
  | arr (elems : List Json) : Json
  | obj (fields : List (String × Json)) : Json

/-- Lookup of a key in a JSON object, modelling Python `dict` access
(`device["model"]`) and pydantic's reading of a declared field. -/
def getField (fields : List (String × Json)) (key : String) : Option Json :=
  List.lookup key fields

/-- Pydantic model `Model` (device classification). -/
structure Model where
  deviceType : String
  manufacturer : Option String
  modelNumber : Option String
  hardwareVersion : Option String
  description : Option String
deriving DecidableEq

/-- Pydantic model `Unit` (physical unit identity).  The optional
`firmwareDate : datetime` is modelled as the string the router sent; no claim
depends on datetime decoding. -/
structure Unit where
  serialNumber : Option String
  firmwareVersion : Option String
  firmwareDate : Option String
deriving DecidableEq

/-- Pydantic model `Interface` (a network interface on a device). -/
structure Interface where
  macAddress : String
  interfaceType : String
  band : Option String
deriving DecidableEq

/-- Pydantic model `Connection` (an observed network-layer connection).
`parentDeviceID : Optional[UUID]` is kept as the validated UUID string. -/
structure Connection where
  macAddress : String
  ipAddress : Option String
  ipv6Address : Option String
  parentDeviceID : Option String
deriving DecidableEq

/-- Pydantic model `Property` (a free-form name/value pair). -/
structure Property where
  name : String
  value : String
deriving DecidableEq

/-- Pydantic model `Device`, the aggregate root.  `deviceID : UUID` is kept
as the validated UUID string. -/
structure Device where
  deviceID : String
  lastChangeRevision : Int
  model : Model
  unit : Unit
  isAuthority : Bool
  nodeType : Option String
  friendlyName : Option String
  knownInterfaces : List Interface
  connections : List Connection
  properties : List Property
  maxAllowedProperties : Int
deriving DecidableEq

/-- Pydantic model `DeviceStatus`, the derived per-device view. -/
structure DeviceStatus where
  device : Device
  is_online : Bool
  online_interfaces : List Interface
deriving DecidableEq

/-- Python truthiness of an `Optional[str]` argument: `None` and the empty
string are falsy, as in the `if friendly_name:` / `if mac_address:` guards of
`filter_devices`. -/
def truthy : Option String → Bool
  | none => false
  | some s => !(s == "")

/-- Python substring test `needle in hay` on lists of characters. -/
def list_contains_sub (needle : List Char) : List Char → Bool
  | [] => needle.isEmpty
  | c :: rest => List.isPrefixOf needle (c :: rest) || list_contains_sub needle rest

/-- Python substring test `needle in hay` on strings. -/
def str_contains_sub (hay needle : String) : Bool :=
  list_contains_sub needle.data hay.data

/-- Python `str.lower`, modelled as the ASCII case map over the characters. -/
def str_lower (s : String) : String :=
  String.mk (s.data.map Char.toLower)

/-- Python `str.upper`, modelled as the ASCII case map over the characters. -/
def str_upper (s : String) : String :=
  String.mk (s.data.map Char.toUpper)

/-- Embedding of `filter_devices(devices, *, friendly_name=None,
mac_address=None)`: an optional case-insensitive substring filter on
`friendlyName` followed by an optional exact-match filter of the uppercased
MAC argument against the `knownInterfaces` MAC addresses. -/
def filter_devices (devices : List Device) (friendly_name mac_address : Option String) :
    List Device :=
  let devices :=
    if truthy friendly_name then
      devices.filter fun d =>
        str_contains_sub (str_lower (d.friendlyName.getD "")) (str_lower (friendly_name.getD ""))
    else devices
  if truthy mac_address then
    let mac := str_upper (mac_address.getD "")
    devices.filter fun d => d.knownInterfaces.any fun i => i.macAddress == mac
  else devices

/-- Embedding of `get_device_status(device, online_macs)`: the online
interfaces are the known interfaces whose MAC address is in the online set,
and `is_online` is Python `bool(online_interfaces)`. -/
def get_device_status (device : Device) (online_macs : Finset String) : DeviceStatus :=
  let online_interfaces := device.knownInterfaces.filter fun i => i.macAddress ∈ online_macs
  { device := device
    is_online := !online_interfaces.isEmpty
    online_interfaces := online_interfaces }

/-- The per-device keep condition of the inventory post-processing rule in
`main`: `not (len(d.friendlyName or "") == 36 and "-" in (d.friendlyName or ""))`. -/
def inventory_keep (d : Device) : Bool :=
  !((d.friendlyName.getD "").length == 36 && (d.friendlyName.getD "").contains '-')

/-- The inventory post-processing list comprehension of `main`: drop every
device whose friendly name is 36 characters long and contains a hyphen. -/
def inventory_devices (devices : List Device) : List Device :=
  devices.filter inventory_keep

/-- The device pipeline of `main` up to `filter_devices`: the inventory drop
rule applied first, then the friendly-name/MAC filters. -/
def main_devices (devices : List Device) (friendly mac : Option String) : List Device :=
  filter_devices (inventory_devices devices) friendly mac

/-- The reconciliation step of `main`: one `DeviceStatus` per filtered
device. -/
def device_statuses (devices : List Device) (online_macs : Finset String) :
    List DeviceStatus :=
  devices.map fun d => get_device_status d online_macs

/-- The `online` list of `main`: statuses with `is_online` set. -/
def online_statuses (statuses : List DeviceStatus) : List DeviceStatus :=
  statuses.filter fun s => s.is_online

/-- The `offline` list of `main`: statuses with `is_online` unset. -/
def offline_statuses (statuses : List DeviceStatus) : List DeviceStatus :=
  statuses.filter fun s => !s.is_online

/-- Condition of `main` for printing the online section:
`if not args.offline or args.online`. -/
def shows_online_section (online offline : Bool) : Bool :=
  !offline || online

/-- Condition of `main` for printing the offline section:
`if not args.online or args.offline`. -/
def shows_offline_section (online offline : Bool) : Bool :=
  !online || offline

/-- Condition of `main` for printing the summary line:
`if not args.online and not args.offline`. -/
def shows_summary (online offline : Bool) : Bool :=
  !online && !offline

/-! JSON parsing and validation.  `parse_device` in `get_devices` copies the
raw dict, replaces the nested fields by pydantic sub-models built with
`Model(**device["model"])` and friends, and builds `Device(**device_data)`.
Pydantic validates each declared field in its default lax mode: a required
field must be present and carry either the declared type or a value pydantic
coerces to it — an integer-valued decimal string for an `int` field, the
integers `0`/`1` or a boolean-like string (`true`/`t`/`yes`/`y`/`on`/`1` and
`false`/`f`/`no`/`n`/`off`/`0`, case-insensitively) for a `bool` field; `str`
fields take only strings.  An `Optional` field defaults to `None` and also
accepts an explicit JSON `null`; extra fields are ignored.  `UUID` fields
validate the string the way Python's `uuid.UUID` constructor does: remove
`urn:`/`uuid:` markers, strip surrounding braces, drop hyphens, and require
exactly 32 hexadecimal digits. -/

/-- Hexadecimal digit test used by UUID validation. -/
def isHexDigit (c : Char) : Bool :=
  c.isDigit || ('a' ≤ c && c ≤ 'f') || ('A' ≤ c && c ≤ 'F')

/-- Python `str.replace(pat, "")` on character lists: remove every
left-to-right, non-overlapping occurrence of `pat`.  Structural recursion on
a fuel argument; each step consumes at least one character, so a fuel equal
to the list length never runs out. -/
def removeSubAux (pat : List Char) : Nat → List Char → List Char
  | 0, l => l
  | _ + 1, [] => []
  | fuel + 1, c :: rest =>
      if !pat.isEmpty && List.isPrefixOf pat (c :: rest) then
        removeSubAux pat fuel (List.drop pat.length (c :: rest))
      else
        c :: removeSubAux pat fuel rest

/-- Python `s.replace(pat, "")` applied to a character list. -/
def removeSub (pat : String) (l : List Char) : List Char :=
  removeSubAux pat.data l.length l

/-- Test for an opening or closing curly brace character. -/
def isBraceChar (c : Char) : Bool :=
  c == Char.ofNat 123 || c == Char.ofNat 125

/-- Validation of a UUID string, modelling `uuid.UUID(s)`: remove every
`urn:` and `uuid:` marker, strip surrounding braces, drop the hyphens and
require exactly 32 hexadecimal digits. -/
def isValidUUID (s : String) : Bool :=
  let t := removeSub "uuid:" (removeSub "urn:" s.data)
  let t := ((t.dropWhile isBraceChar).reverse.dropWhile isBraceChar).reverse
  let hex := t.filter fun c => !(c == '-')
  hex.length == 32 && hex.all isHexDigit

/-- Decimal digit string test: non-empty and all digits. -/
def decDigits (cs : List Char) : Bool :=
  !cs.isEmpty && cs.all Char.isDigit

/-- Value of a list of decimal digit characters. -/
def digitsToNat (cs : List Char) : Nat :=
  cs.foldl (fun n c => 10 * n + (c.toNat - 48)) 0

/-- Pydantic's lax coercion of a string to an integer: an optional sign
followed by decimal digits. -/
def strToInt (s : String) : Option Int :=
  match s.data with
  | '+' :: rest => if decDigits rest then some (Int.ofNat (digitsToNat rest)) else none
  | '-' :: rest => if decDigits rest then some (-Int.ofNat (digitsToNat rest)) else none
  | cs => if decDigits cs then some (Int.ofNat (digitsToNat cs)) else none

/-- The strings pydantic's lax mode coerces to `True` (compared after
lower-casing). -/
def boolTrueStrings : List String :=
  ["true", "t", "yes", "y", "on", "1"]

/-- The strings pydantic's lax mode coerces to `False` (compared after
lower-casing). -/
def boolFalseStrings : List String :=
  ["false", "f", "no", "n", "off", "0"]

/-- Read a required string field.  A missing field or a non-string value is a
pydantic `ValidationError`. -/
def reqStr (fields : List (String × Json)) (key : String) : Except String String :=
  match getField fields key with
  | some (Json.str s) => Except.ok s
  | some _ => Except.error (key ++ ": expected a string")
  | none => Except.error (key ++ ": field required")

/-- Read a required integer field.  Pydantic's lax mode accepts an integer
or an integer-valued decimal string; anything else is a `ValidationError`. -/
def reqInt (fields : List (String × Json)) (key : String) : Except String Int :=
  match getField fields key with
  | some (Json.int n) => Except.ok n
  | some (Json.str s) =>
      match strToInt s with
      | some n => Except.ok n
      | none => Except.error (key ++ ": expected an integer")
  | some _ => Except.error (key ++ ": expected an integer")
  | none => Except.error (key ++ ": field required")

/-- Read a required boolean field.  Pydantic's lax mode accepts a boolean,
the integers `0`/`1`, or a boolean-like string compared case-insensitively;
anything else is a `ValidationError`. -/
def reqBool (fields : List (String × Json)) (key : String) : Except String Bool :=
  match getField fields key with
  | some (Json.bool b) => Except.ok b
  | some (Json.int n) =>
      if n == 0 then Except.ok false
      else if n == 1 then Except.ok true
      else Except.error (key ++ ": expected a boolean")
  | some (Json.str s) =>
      if boolTrueStrings.contains (str_lower s) then Except.ok true
      else if boolFalseStrings.contains (str_lower s) then Except.ok false
      else Except.error (key ++ ": expected a boolean")
  | some _ => Except.error (key ++ ": expected a boolean")
  | none => Except.error (key ++ ": field required")

/-- A JSON value pydantic's lax mode accepts for a required `int` field. -/
def intCoercible : Json → Bool
  | Json.int _ => true
  | Json.str s => (strToInt s).isSome
  | _ => false

/-- A JSON value pydantic's lax mode accepts for a required `bool` field. -/
def boolCoercible : Json → Bool
  | Json.bool _ => true
  | Json.int n => n == 0 || n == 1
  | Json.str s =>
      boolTrueStrings.contains (str_lower s) || boolFalseStrings.contains (str_lower s)
  | _ => false

/-- Read a required UUID field: a string that validates as a UUID. -/
def reqUUID (fields : List (String × Json)) (key : String) : Except String String :=
  match getField fields key with
  | some (Json.str s) =>
      if isValidUUID s then Except.ok s else Except.error (key ++ ": invalid UUID")
  | some _ => Except.error (key ++ ": expected a UUID string")
  | none => Except.error (key ++ ": field required")

/-- Read an `Optional[str]` field: absent or `null` gives `none`; a present
value must be a string. -/
def optStr (fields : List (String × Json)) (key : String) : Except String (Option String) :=
  match getField fields key with
  | none => Except.ok none
  | some Json.null => Except.ok none
  | some (Json.str s) => Except.ok (some s)
  | some _ => Except.error (key ++ ": expected a string or null")

/-- Read an `Optional[UUID]` field. -/
def optUUID (fields : List (String × Json)) (key : String) : Except String (Option String) :=
  match getField fields key with
  | none => Except.ok none
  | some Json.null => Except.ok none
  | some (Json.str s) =>
      if isValidUUID s then Except.ok (some s) else Except.error (key ++ ": invalid UUID")
  | some _ => Except.error (key ++ ": expected a UUID string or null")

/-- Python `dict` item access `device[key]`: a missing key raises
(`KeyError`), modelled as an error. -/
def require (fields : List (String × Json)) (key : String) : Except String Json :=
  match getField fields key with
  | some j => Except.ok j
  | none => Except.error (key ++ ": KeyError")

/-- A JSON value used with `**`/iteration must be an object. -/
def asObj (j : Json) : Except String (List (String × Json)) :=
  match j with
  | Json.obj fields => Except.ok fields
  | _ => Except.error "expected an object"

/-- A JSON value iterated over (`for i in device["knownInterfaces"]`) must be
an array. -/
def asArr (j : Json) : Except String (List Json) :=
  match j with
  | Json.arr elems => Except.ok elems
  | _ => Except.error "expected an array"

/-- Validation of `Model(**device["model"])`. -/
def parseModel (j : Json) : Except String Model := do
  let fields ← asObj j
  let deviceType ← reqStr fields "deviceType"
  let manufacturer ← optStr fields "manufacturer"
  let modelNumber ← optStr fields "modelNumber"
  let hardwareVersion ← optStr fields "hardwareVersion"
  let description ← optStr fields "description"
  Except.ok { deviceType, manufacturer, modelNumber, hardwareVersion, description }

/-- Validation of `Unit(**device["unit"])`. -/
def parseUnit (j : Json) : Except String Unit := do
  let fields ← asObj j
  let serialNumber ← optStr fields "serialNumber"
  let firmwareVersion ← optStr fields "firmwareVersion"
  let firmwareDate ← optStr fields "firmwareDate"
  Except.ok { serialNumber, firmwareVersion, firmwareDate }

/-- Validation of `Interface(**i)`. -/
def parseInterface (j : Json) : Except String Interface := do
  let fields ← asObj j
  let macAddress ← reqStr fields "macAddress"
  let interfaceType ← reqStr fields "interfaceType"
  let band ← optStr fields "band"
  Except.ok { macAddress, interfaceType, band }

/-- Validation of `Connection(**c)`. -/
def parseConnection (j : Json) : Except String Connection := do
  let fields ← asObj j
  let macAddress ← reqStr fields "macAddress"
  let ipAddress ← optStr fields "ipAddress"
  let ipv6Address ← optStr fields "ipv6Address"
  let parentDeviceID ← optUUID fields "parentDeviceID"
  Except.ok { macAddress, ipAddress, ipv6Address, parentDeviceID }

/-- Validation of `Property(**p)`. -/
def parseProperty (j : Json) : Except String Property := do
  let fields ← asObj j
  let name ← reqStr fields "name"
  let value ← reqStr fields "value"
  Except.ok { name, value }

/-- Embedding of `parse_device(device)`: build the nested sub-models from the
`model`, `unit`, `knownInterfaces`, `connections` and `properties` entries
(a missing entry raises `KeyError`), then validate the remaining declared
fields of `Device(**device_data)`. -/
def parse_device (j : Json) : Except String Device := do
  let fields ← asObj j
  let modelJson ← require fields "model"
  let model ← parseModel modelJson
  let unitJson ← require fields "unit"
  let unit ← parseUnit unitJson
  let kiJson ← require fields "knownInterfaces"
  let kiElems ← asArr kiJson
  let knownInterfaces ← kiElems.mapM parseInterface
  let connJson ← require fields "connections"
  let connElems ← asArr connJson
  let connections ← connElems.mapM parseConnection
  let propJson ← require fields "properties"
  let propElems ← asArr propJson
  let properties ← propElems.mapM parseProperty
  let deviceID ← reqUUID fields "deviceID"
  let lastChangeRevision ← reqInt fields "lastChangeRevision"
  let isAuthority ← reqBool fields "isAuthority"
  let nodeType ← optStr fields "nodeType"
  let friendlyName ← optStr fields "friendlyName"
  let maxAllowedProperties ← reqInt fields "maxAllowedProperties"
  Except.ok
    { deviceID, lastChangeRevision, model, unit, isAuthority, nodeType, friendlyName,
      knownInterfaces, connections, properties, maxAllowedProperties }

/-- Embedding of the list comprehension
`[parse_device(d) for d in ...devices]`: the first raised validation error
aborts the whole parse, no partial list is produced. -/
def parseDevices (ds : List Json) : Except String (List Device) :=
  ds.mapM parse_device

/-- A concrete device whose stored interface MAC address is lower-case. -/
def dev1 : Device :=
  { deviceID := "00000000-0000-0000-0000-000000000001"
    lastChangeRevision := 1
    model := { deviceType := "Computer", manufacturer := none, modelNumber := none,
               hardwareVersion := none, description := none }
    unit := { serialNumber := none, firmwareVersion := none, firmwareDate := none }
    isAuthority := false
    nodeType := none
    friendlyName := some "Living Room TV"
    knownInterfaces :=
      [{ macAddress := "aa:bb:cc:dd:ee:ff", interfaceType := "Wireless", band := none }]
    connections := []
    properties := []
    maxAllowedProperties := 16 }

/-- A concrete device whose stored interface MAC address is upper-case. -/
def dev2 : Device :=
  { dev1 with
    deviceID := "00000000-0000-0000-0000-000000000002"
    friendlyName := some "Bedroom Lamp"
    knownInterfaces :=
      [{ macAddress := "AA:BB:CC:DD:EE:FF", interfaceType := "Wireless", band := none }] }

/-- A concrete device with no known interfaces. -/
def dev3 : Device :=
  { dev1 with
    deviceID := "00000000-0000-0000-0000-000000000003"
    friendlyName := some "Ghost"
    knownInterfaces := [] }

/-- A concrete device whose friendly name is a bare UUID string
(36 characters, containing hyphens). -/
def devUuidName : Device :=
  { dev1 with
    deviceID := "00000000-0000-0000-0000-000000000004"
    friendlyName := some "550e8400-e29b-41d4-a716-446655440000" }

/-- Declared field names of the `Device` model: the fields pydantic reads;
every other key of the record is ignored. -/
def deviceFieldKeys : List String :=
  ["deviceID", "lastChangeRevision", "model", "unit", "isAuthority", "nodeType",
   "friendlyName", "knownInterfaces", "connections", "properties", "maxAllowedProperties"]

/-- Declared field names of the `Model` model. -/
def modelFieldKeys : List String :=
  ["deviceType", "manufacturer", "modelNumber", "hardwareVersion", "description"]

/-- Declared field names of the `Unit` model. -/
def unitFieldKeys : List String :=
  ["serialNumber", "firmwareVersion", "firmwareDate"]

/-- Declared field names of the `Interface` model. -/
def interfaceFieldKeys : List String :=
  ["macAddress", "interfaceType", "band"]

/-- Declared field names of the `Connection` model. -/
def connectionFieldKeys : List String :=
  ["macAddress", "ipAddress", "ipv6Address", "parentDeviceID"]

/-- Declared field names of the `Property` model. -/
def propertyFieldKeys : List String :=
  ["name", "value"]

/-- A concrete device JSON record that supplies every required field and
omits every optional field. -/
def sampleDeviceFields : List (String × Json) :=
  [("deviceID", Json.str "550e8400-e29b-41d4-a716-446655440000"),
   ("lastChangeRevision", Json.int 7),
   ("model", Json.obj [("deviceType", Json.str "Computer")]),
   ("unit", Json.obj []),
   ("isAuthority", Json.bool false),
   ("knownInterfaces",
     Json.arr [Json.obj [("macAddress", Json.str "AA:BB:CC:DD:EE:FF"),
                         ("interfaceType", Json.str "Wireless")]]),
   ("connections", Json.arr [Json.obj [("macAddress", Json.str "AA:BB:CC:DD:EE:FF")]]),
   ("properties", Json.arr [Json.obj [("name", Json.str "userDeviceName"),
                                      ("value", Json.str "TV")]]),
   ("maxAllowedProperties", Json.int 16)]

/-- A concrete device JSON record in which two required fields hold values
of the wrong JSON type that pydantic's lax mode nevertheless coerces:
`lastChangeRevision` is the string `"7"` and `isAuthority` is the integer
`1`. -/
def sampleCoercedFields : List (String × Json) :=
  [("deviceID", Json.str "550e8400-e29b-41d4-a716-446655440000"),
   ("lastChangeRevision", Json.str "7"),
   ("model", Json.obj [("deviceType", Json.str "Computer")]),
   ("unit", Json.obj []),
   ("isAuthority", Json.int 1),
   ("knownInterfaces", Json.arr []),
   ("connections", Json.arr []),
   ("properties", Json.arr []),
   ("maxAllowedProperties", Json.int 16)]

/-- The device that `sampleCoercedFields` parses into: the string `"7"` was
coerced to the integer `7` and the integer `1` to `true`. -/
def coercedDevice : Device :=
  { deviceID := "550e8400-e29b-41d4-a716-446655440000"
    lastChangeRevision := 7
    model := { deviceType := "Computer", manufacturer := none, modelNumber := none,
               hardwareVersion := none, description := none }
    unit := { serialNumber := none, firmwareVersion := none, firmwareDate := none }
    isAuthority := true
    nodeType := none
    friendlyName := none
    knownInterfaces := []
    connections := []
    properties := []
    maxAllowedProperties := 16 }

/-- Helper: `None` is falsy. -/
theorem truthy_none : truthy none = false := rfl

/-- Helper: the output of `filter_devices` is a sublist of its input. -/
theorem filter_devices_sublist (D : List Device) (fn mac : Option String) :
    (filter_devices D fn mac).Sublist D := by
  unfold filter_devices
  cases truthy fn <;> cases truthy mac <;> simp

/-- Helper: bind of a successful `Except` computation. -/
theorem ok_bind {α β : Type} (a : α) (g : α → Except String β) :
    (Except.ok a >>= g) = g a := rfl

/-- Helper: inversion of a successful bind on `Except`. -/
theorem bind_ok_inv {α β : Type} {x : Except String α} {g : α → Except String β} {b : β}
    (h : (x >>= g) = Except.ok b) : ∃ a, x = Except.ok a ∧ g a = Except.ok b := by
  cases x with
  | error e => exact Except.noConfusion h
  | ok a => exact ⟨a, rfl, h⟩

/-- Helper: a successful `asObj` means the value was an object. -/
theorem asObj_ok {j : Json} {f : List (String × Json)} (h : asObj j = Except.ok f) :
    j = Json.obj f := by
  cases j <;> simp_all [asObj]

/-- Helper: a successful `asArr` means the value was an array. -/
theorem asArr_ok {j : Json} {l : List Json} (h : asArr j = Except.ok l) :
    j = Json.arr l := by
  cases j <;> simp_all [asArr]

/-- Helper: a successful `require` means the key was present. -/
theorem require_ok {f : List (String × Json)} {k : String} {j : Json}
    (h : require f k = Except.ok j) : getField f k = some j := by
  unfold require at h
  split at h <;> simp_all

/-- Helper: a successful `reqStr` means the key held a string. -/
theorem reqStr_ok {f : List (String × Json)} {k s : String}
    (h : reqStr f k = Except.ok s) : getField f k = some (Json.str s) := by
  unfold reqStr at h
  split at h <;> simp_all

/-- Helper: a successful `reqInt` means the key held an integer or a value
pydantic's lax mode coerces to one. -/
theorem reqInt_ok {f : List (String × Json)} {k : String} {n : Int}
    (h : reqInt f k = Except.ok n) :
    ∃ jv, getField f k = some jv ∧ intCoercible jv = true := by
  unfold reqInt at h
  cases hg : getField f k with
  | none => rw [hg] at h; exact Except.noConfusion h
  | some jv =>
      rw [hg] at h
      refine ⟨jv, rfl, ?_⟩
      cases jv with
      | int m => rfl
      | str s =>
          simp only [intCoercible]
          have h' : (match strToInt s with
                     | some m => Except.ok m
                     | none => Except.error (k ++ ": expected an integer")) = Except.ok n := h
          cases hs : strToInt s with
          | none => rw [hs] at h'; exact Except.noConfusion h'
          | some m => simp [hs]
      | null => exact Except.noConfusion h
      | bool c => exact Except.noConfusion h
      | arr a => exact Except.noConfusion h
      | obj o => exact Except.noConfusion h

/-- Helper: a successful `reqBool` means the key held a boolean or a value
pydantic's lax mode coerces to one. -/
theorem reqBool_ok {f : List (String × Json)} {k : String} {b : Bool}
    (h : reqBool f k = Except.ok b) :
    ∃ jv, getField f k = some jv ∧ boolCoercible jv = true := by
  unfold reqBool at h
  cases hg : getField f k with
  | none => rw [hg] at h; exact Except.noConfusion h
  | some jv =>
      rw [hg] at h
      refine ⟨jv, rfl, ?_⟩
      cases jv with
      | bool c => rfl
      | int m =>
          simp only [boolCoercible]
          by_cases h0 : m = 0
          · simp [h0]
          · by_cases h1 : m = 1
            · simp [h1]
            · simp [h0, h1] at h
      | str s =>
          simp only [boolCoercible]
          have h' : (if boolTrueStrings.contains (str_lower s) = true then Except.ok true
                     else if boolFalseStrings.contains (str_lower s) = true then
                       Except.ok false
                     else Except.error (k ++ ": expected a boolean")) = Except.ok b := h
          by_cases ht : boolTrueStrings.contains (str_lower s) = true
          · rw [ht, Bool.true_or]
          · by_cases hf : boolFalseStrings.contains (str_lower s) = true
            · rw [hf, Bool.or_true]
            · rw [if_neg ht, if_neg hf] at h'
              exact Except.noConfusion h'
      | null => exact Except.noConfusion h
      | arr a => exact Except.noConfusion h
      | obj o => exact Except.noConfusion h

/-- Helper: a successful `reqUUID` means the key held a valid UUID string. -/
theorem reqUUID_ok {f : List (String × Json)} {k s : String}
    (h : reqUUID f k = Except.ok s) :
    getField f k = some (Json.str s) ∧ isValidUUID s = true := by
  unfold reqUUID at h
  split at h
  · split at h <;> simp_all
  · simp_all
  · simp_all

/-- Helper: a successful `mapM` means every element parsed successfully. -/
theorem mapM_ok_mem {α β : Type} {g : α → Except String β} :
    ∀ {l : List α} {bs : List β}, l.mapM g = Except.ok bs →
      ∀ a ∈ l, ∃ b, g a = Except.ok b := by
  intro l
  induction l with
  | nil =>
      intro bs _ a ha
      exact absurd ha (List.not_mem_nil a)
  | cons x xs ih =>
      intro bs h a ha
      rw [List.mapM_cons] at h
      obtain ⟨b, hb, h⟩ := bind_ok_inv h
      obtain ⟨bs', hbs', _⟩ := bind_ok_inv h
      rcases List.mem_cons.mp ha with rfl | hmem
      · exact ⟨b, hb⟩
      · exact ih hbs' a hmem

/-- Helper: a successful `parseModel` means `deviceType` was a string. -/
theorem parseModel_ok {j : Json} {m : Model} (h : parseModel j = Except.ok m) :
    ∃ f, j = Json.obj f ∧ ∃ s, getField f "deviceType" = some (Json.str s) := by
  unfold parseModel at h
  obtain ⟨f, hf, h⟩ := bind_ok_inv h
  obtain ⟨dt, hdt, _⟩ := bind_ok_inv h
  exact ⟨f, asObj_ok hf, dt, reqStr_ok hdt⟩

/-- Helper: a successful `parseInterface` means the required fields were
strings. -/
theorem parseInterface_ok {j : Json} {i : Interface} (h : parseInterface j = Except.ok i) :
    ∃ f, j = Json.obj f ∧
      (∃ s, getField f "macAddress" = some (Json.str s)) ∧
      (∃ s, getField f "interfaceType" = some (Json.str s)) := by
  unfold parseInterface at h
  obtain ⟨f, hf, h⟩ := bind_ok_inv h
  obtain ⟨mac, hmac, h⟩ := bind_ok_inv h
  obtain ⟨it, hit, _⟩ := bind_ok_inv h
  exact ⟨f, asObj_ok hf, ⟨mac, reqStr_ok hmac⟩, ⟨it, reqStr_ok hit⟩⟩

/-- Helper: a successful `parseConnection` means `macAddress` was a string. -/
theorem parseConnection_ok {j : Json} {c : Connection}
    (h : parseConnection j = Except.ok c) :
    ∃ f, j = Json.obj f ∧ ∃ s, getField f "macAddress" = some (Json.str s) := by
  unfold parseConnection at h
  obtain ⟨f, hf, h⟩ := bind_ok_inv h
  obtain ⟨mac, hmac, _⟩ := bind_ok_inv h
  exact ⟨f, asObj_ok hf, mac, reqStr_ok hmac⟩

/-- Helper: a successful `parseProperty` means `name` and `value` were
strings. -/
theorem parseProperty_ok {j : Json} {p : Property} (h : parseProperty j = Except.ok p) :
    ∃ f, j = Json.obj f ∧
      (∃ s, getField f "name" = some (Json.str s)) ∧
      (∃ s, getField f "value" = some (Json.str s)) := by
  unfold parseProperty at h
  obtain ⟨f, hf, h⟩ := bind_ok_inv h
  obtain ⟨nm, hnm, h⟩ := bind_ok_inv h
  obtain ⟨vl, hvl, _⟩ := bind_ok_inv h
  exact ⟨f, asObj_ok hf, ⟨nm, reqStr_ok hnm⟩, ⟨vl, reqStr_ok hvl⟩⟩

/-- C1: `get_device_status` is a pure function of the device and the
online-MAC set; its `online_interfaces` is exactly the sublist of the
device's `knownInterfaces` whose MAC address is in the set, its `is_online`
is true iff that sublist is non-empty, and a device with no known interfaces
is always offline. -/
theorem get_device_status_spec (d : Device) (S : Finset String) :
    (get_device_status d S).device = d ∧
    (get_device_status d S).online_interfaces
      = d.knownInterfaces.filter (fun i => i.macAddress ∈ S) ∧
    ((get_device_status d S).is_online = true ↔
      (get_device_status d S).online_interfaces ≠ []) ∧
    (d.knownInterfaces = [] → (get_device_status d S).is_online = false) := by
  refine ⟨rfl, rfl, ?_, ?_⟩
  · simp [get_device_status]
  · intro h
    simp [get_device_status, h]

/-- Witness for C1 at a concrete device and online-MAC set. -/
theorem get_device_status_spec_witness :
    (get_device_status dev1 {"aa:bb:cc:dd:ee:ff"}).device = dev1 ∧
    (get_device_status dev1 {"aa:bb:cc:dd:ee:ff"}).online_interfaces
      = dev1.knownInterfaces.filter
          (fun i => i.macAddress ∈ ({"aa:bb:cc:dd:ee:ff"} : Finset String)) ∧
    ((get_device_status dev1 {"aa:bb:cc:dd:ee:ff"}).is_online = true ↔
      (get_device_status dev1 {"aa:bb:cc:dd:ee:ff"}).online_interfaces ≠ []) ∧
    (dev1.knownInterfaces = [] →
      (get_device_status dev1 {"aa:bb:cc:dd:ee:ff"}).is_online = false) :=
  get_device_status_spec dev1 {"aa:bb:cc:dd:ee:ff"}

/-- C2: the inventory rule keeps exactly the devices whose friendly name is
not a 36-character string containing a hyphen (an absent friendly name is
always kept), `main` applies it before `filter_devices`, and a device the
rule drops is absent from the pipeline's output whatever filter arguments
follow. -/
theorem inventory_rule_spec (D : List Device) (d : Device) (fn mac : Option String) :
    (d ∈ inventory_devices D ↔
      d ∈ D ∧ ¬((d.friendlyName.getD "").length = 36 ∧
                 (d.friendlyName.getD "").contains '-' = true)) ∧
    (d.friendlyName = none → d ∈ D → d ∈ inventory_devices D) ∧
    main_devices D fn mac = filter_devices (inventory_devices D) fn mac ∧
    ((d.friendlyName.getD "").length = 36 →
      (d.friendlyName.getD "").contains '-' = true →
      d ∉ main_devices D fn mac) := by
  refine ⟨?_, ?_, rfl, ?_⟩
  · simp [inventory_devices, List.mem_filter, inventory_keep, not_and]
    tauto
  · intro hname hmem
    simp [inventory_devices, List.mem_filter, inventory_keep, hname, hmem]
  · intro h36 hdash hmem
    have hinv : d ∈ inventory_devices D :=
      (filter_devices_sublist (inventory_devices D) fn mac).subset hmem
    have : inventory_keep d = true := (List.mem_filter.mp hinv).2
    simp [inventory_keep, h36, hdash] at this

/-- Witness for C2 at a concrete device list, device and filter flags:
`dev1`'s friendly name is a 36-character UUID-like string here. -/
theorem inventory_rule_spec_witness :
    (devUuidName ∈ inventory_devices [devUuidName] ↔
      devUuidName ∈ [devUuidName] ∧
        ¬((devUuidName.friendlyName.getD "").length = 36 ∧
          (devUuidName.friendlyName.getD "").contains '-' = true)) ∧
    (devUuidName.friendlyName = none →
      devUuidName ∈ [devUuidName] → devUuidName ∈ inventory_devices [devUuidName]) ∧
    main_devices [devUuidName] none none
      = filter_devices (inventory_devices [devUuidName]) none none ∧
    ((devUuidName.friendlyName.getD "").length = 36 →
      (devUuidName.friendlyName.getD "").contains '-' = true →
      devUuidName ∉ main_devices [devUuidName] none none) :=
  inventory_rule_spec [devUuidName] devUuidName none none

/-- C5: section selection of `main`.  With both `--online` and `--offline`
set, the two device sections behave exactly as with neither flag set (both
sections print), while the summary line prints exactly when neither flag is
set — the full truth table of the source's boolean logic. -/
theorem section_selection_truth_table :
    shows_online_section true true = shows_online_section false false ∧
    shows_offline_section true true = shows_offline_section false false ∧
    shows_online_section true true = true ∧
    shows_offline_section true true = true ∧
    shows_summary false false = true ∧
    shows_summary true false = false ∧
    shows_summary false true = false ∧
    shows_summary true true = false := by
  decide

/-- C9: `filter_devices` returns an order-preserving, duplication-free
selection of its input (a sublist, hence per-element counts never grow), and
with neither filter argument present it is the identity. -/
theorem filter_devices_sublist_spec (D : List Device) (fn mac : Option String) :
    (filter_devices D fn mac).Sublist D ∧
    (∀ d : Device, (filter_devices D fn mac).count d ≤ D.count d) ∧
    filter_devices D none none = D :=
  ⟨filter_devices_sublist D fn mac,
   fun d => (filter_devices_sublist D fn mac).count_le d,
   rfl⟩

/-- C3 counterexample: the MAC filter does NOT match ignoring case in
general.  `dev1` stores the lower-case MAC `aa:bb:cc:dd:ee:ff`; filtering by
that very string (equal ignoring case) drops the device, because the code
compares the UPPERCASED argument for exact equality against the stored
string. -/
theorem mac_filter_claim_counterexample :
    ¬ ((dev1 ∈ filter_devices [dev1] none (some "aa:bb:cc:dd:ee:ff")) ↔
       ∃ i ∈ dev1.knownInterfaces,
         str_lower i.macAddress = str_lower "aa:bb:cc:dd:ee:ff") := by
  decide

/-- C3 (amended): for a non-empty MAC argument `m`, the filter keeps a device
iff some known interface's stored MAC address equals `m` uppercased, exactly;
a lower-case argument therefore matches a device whose stored MAC is the
upper-case form, but a stored lower-case MAC is never matched. -/
theorem mac_filter_spec (D : List Device) (m : String) (h : ¬ m = "") (d : Device) :
    d ∈ filter_devices D none (some m) ↔
      d ∈ D ∧ ∃ i ∈ d.knownInterfaces, i.macAddress = str_upper m := by
  simp [filter_devices, truthy, h, List.mem_filter, List.any_eq_true]

/-- Witness for C3 at a concrete device and the lower-case MAC argument of
the spec's scenario: the stored MAC is `AA:BB:CC:DD:EE:FF` and the filter
argument is `aa:bb:cc:dd:ee:ff`. -/
theorem mac_filter_spec_witness :
    ¬ "aa:bb:cc:dd:ee:ff" = "" ∧
    (dev2 ∈ filter_devices [dev2] none (some "aa:bb:cc:dd:ee:ff") ↔
      dev2 ∈ [dev2] ∧
        ∃ i ∈ dev2.knownInterfaces, i.macAddress = str_upper "aa:bb:cc:dd:ee:ff") :=
  ⟨by decide, mac_filter_spec [dev2] "aa:bb:cc:dd:ee:ff" (by decide) dev2⟩

/-- C4: the friendly-name filter and the MAC filter commute, for every device
list and every pair of filter strings. -/
theorem filter_commutes (D : List Device) (n m : String) :
    filter_devices (filter_devices D (some n) none) none (some m)
      = filter_devices (filter_devices D none (some m)) (some n) none := by
  cases hn : truthy (some n) <;> cases hm : truthy (some m) <;>
    simp only [filter_devices, truthy_none, hn, hm, Bool.false_eq_true, if_false, if_true,
      ite_true, ite_false]
  rw [List.filter_filter, List.filter_filter]
  congr 1
  funext d
  rw [Bool.and_comm]

/-- Witness for C4 at a concrete list and concrete filter strings (no
hypothesis to discharge; instantiation only). -/
theorem filter_commutes_witness :
    filter_devices (filter_devices [dev1, dev2] (some "room") none) none
        (some "aa:bb:cc:dd:ee:ff")
      = filter_devices (filter_devices [dev1, dev2] none (some "aa:bb:cc:dd:ee:ff"))
          (some "room") none :=
  filter_commutes [dev1, dev2] "room" "aa:bb:cc:dd:ee:ff"

/-- C10: the online/offline split of `main` partitions the reconciled status
list: a status is in the online list iff it is a reconciled status with
`is_online` set, in the offline list iff `is_online` is unset, both lists are
order-preserving sublists, and the two lengths sum to the number of filtered
devices (the three numbers of the summary line). -/
theorem main_partition_spec (devices : List Device) (S : Finset String) :
    (∀ s : DeviceStatus,
       s ∈ online_statuses (device_statuses devices S) ↔
         s ∈ device_statuses devices S ∧ s.is_online = true) ∧
    (∀ s : DeviceStatus,
       s ∈ offline_statuses (device_statuses devices S) ↔
         s ∈ device_statuses devices S ∧ s.is_online = false) ∧
    (online_statuses (device_statuses devices S)).Sublist (device_statuses devices S) ∧
    (offline_statuses (device_statuses devices S)).Sublist (device_statuses devices S) ∧
    (online_statuses (device_statuses devices S)).length
      + (offline_statuses (device_statuses devices S)).length = devices.length := by
  refine ⟨?_, ?_, List.filter_sublist _, List.filter_sublist _, ?_⟩
  · intro s
    simp [online_statuses, List.mem_filter]
  · intro s
    simp [offline_statuses, List.mem_filter]
  · have h := List.length_eq_length_filter_add
      (l := device_statuses devices S) (fun s => s.is_online)
    simp only [online_statuses, offline_statuses]
    have hlen : (device_statuses devices S).length = devices.length := by
      simp [device_statuses]
    rw [← hlen, h]

/-- Witness for C10 at a concrete device list and online-MAC set. -/
theorem main_partition_spec_witness :
    (∀ s : DeviceStatus,
       s ∈ online_statuses (device_statuses [dev1, dev3] {"aa:bb:cc:dd:ee:ff"}) ↔
         s ∈ device_statuses [dev1, dev3] {"aa:bb:cc:dd:ee:ff"} ∧ s.is_online = true) ∧
    (∀ s : DeviceStatus,
       s ∈ offline_statuses (device_statuses [dev1, dev3] {"aa:bb:cc:dd:ee:ff"}) ↔
         s ∈ device_statuses [dev1, dev3] {"aa:bb:cc:dd:ee:ff"} ∧ s.is_online = false) ∧
    (online_statuses (device_statuses [dev1, dev3] {"aa:bb:cc:dd:ee:ff"})).Sublist
      (device_statuses [dev1, dev3] {"aa:bb:cc:dd:ee:ff"}) ∧
    (offline_statuses (device_statuses [dev1, dev3] {"aa:bb:cc:dd:ee:ff"})).Sublist
      (device_statuses [dev1, dev3] {"aa:bb:cc:dd:ee:ff"}) ∧
    (online_statuses (device_statuses [dev1, dev3] {"aa:bb:cc:dd:ee:ff"})).length
      + (offline_statuses (device_statuses [dev1, dev3] {"aa:bb:cc:dd:ee:ff"})).length
      = [dev1, dev3].length :=
  main_partition_spec [dev1, dev3] {"aa:bb:cc:dd:ee:ff"}

/-- C6 counterexample: a required field of the wrong JSON type does NOT
always fail validation.  In `sampleCoercedFields` the required `int` field
`lastChangeRevision` holds the JSON string `"7"` and the required `bool`
field `isAuthority` holds the JSON integer `1`, yet the record parses
successfully: pydantic's default lax mode coerces both values instead of
raising a `ValidationError`. -/
theorem parse_required_fields_claim_counterexample :
    getField sampleCoercedFields "lastChangeRevision" = some (Json.str "7") ∧
    getField sampleCoercedFields "isAuthority" = some (Json.int 1) ∧
    parse_device (Json.obj sampleCoercedFields) = Except.ok coercedDevice :=
  ⟨rfl, rfl, rfl⟩

/-- C6 (amended): a device record parses successfully only if every required
field is present and holds a value pydantic accepts for its declared type —
`deviceID` a UUID-valid string, `lastChangeRevision` and
`maxAllowedProperties` an integer or an integer-valued string (the lax
coercion), `isAuthority` a boolean or a `0`/`1`/boolean-like-string
coercible value, `model.deviceType` a string, and the required string fields
of every element of the `knownInterfaces`, `connections` and `properties`
arrays; consequently a record with such a field absent or of a non-coercible
wrong type never parses, and a list containing one failing record never
parses into a device list — the whole invocation fails, no partial list is
returned. -/
theorem parse_required_fields_spec :
    (∀ (j : Json) (d : Device), parse_device j = Except.ok d →
       ∃ fields, j = Json.obj fields ∧
         (∃ s, getField fields "deviceID" = some (Json.str s) ∧ isValidUUID s = true) ∧
         (∃ jv, getField fields "lastChangeRevision" = some jv ∧ intCoercible jv = true) ∧
         (∃ jv, getField fields "isAuthority" = some jv ∧ boolCoercible jv = true) ∧
         (∃ jv, getField fields "maxAllowedProperties" = some jv ∧ intCoercible jv = true) ∧
         (∃ mf, getField fields "model" = some (Json.obj mf) ∧
            ∃ s, getField mf "deviceType" = some (Json.str s)) ∧
         (∃ ki, getField fields "knownInterfaces" = some (Json.arr ki) ∧
            ∀ x ∈ ki, ∃ xf, x = Json.obj xf ∧
              (∃ s, getField xf "macAddress" = some (Json.str s)) ∧
              (∃ s, getField xf "interfaceType" = some (Json.str s))) ∧
         (∃ cs, getField fields "connections" = some (Json.arr cs) ∧
            ∀ x ∈ cs, ∃ xf, x = Json.obj xf ∧
              ∃ s, getField xf "macAddress" = some (Json.str s)) ∧
         (∃ ps, getField fields "properties" = some (Json.arr ps) ∧
            ∀ x ∈ ps, ∃ xf, x = Json.obj xf ∧
              (∃ s, getField xf "name" = some (Json.str s)) ∧
              (∃ s, getField xf "value" = some (Json.str s)))) ∧
    (∀ (ds : List Json) (j : Json), j ∈ ds →
       (∀ d, ¬ parse_device j = Except.ok d) →
       ∀ l, ¬ parseDevices ds = Except.ok l) := by
  constructor
  · intro j d h
    unfold parse_device at h
    obtain ⟨fields, hfields, h⟩ := bind_ok_inv h
    obtain ⟨modelJson, hmj, h⟩ := bind_ok_inv h
    obtain ⟨model, hm, h⟩ := bind_ok_inv h
    obtain ⟨unitJson, huj, h⟩ := bind_ok_inv h
    obtain ⟨unit, hu, h⟩ := bind_ok_inv h
    obtain ⟨kiJson, hkj, h⟩ := bind_ok_inv h
    obtain ⟨kiElems, hke, h⟩ := bind_ok_inv h
    obtain ⟨kis, hki, h⟩ := bind_ok_inv h
    obtain ⟨connJson, hcj, h⟩ := bind_ok_inv h
    obtain ⟨connElems, hce, h⟩ := bind_ok_inv h
    obtain ⟨conns, hcs, h⟩ := bind_ok_inv h
    obtain ⟨propJson, hpj, h⟩ := bind_ok_inv h
    obtain ⟨propElems, hpe, h⟩ := bind_ok_inv h
    obtain ⟨props, hps, h⟩ := bind_ok_inv h
    obtain ⟨deviceID, hid, h⟩ := bind_ok_inv h
    obtain ⟨rev, hrev, h⟩ := bind_ok_inv h
    obtain ⟨auth, hauth, h⟩ := bind_ok_inv h
    refine ⟨fields, asObj_ok hfields, ?_, ?_, ?_, ?_, ?_, ?_, ?_, ?_⟩
    · obtain ⟨hg, hv⟩ := reqUUID_ok hid
      exact ⟨deviceID, hg, hv⟩
    · exact reqInt_ok hrev
    · exact reqBool_ok hauth
    · obtain ⟨nodeType, hnt, h⟩ := bind_ok_inv h
      obtain ⟨friendly, hfn, h⟩ := bind_ok_inv h
      obtain ⟨maxAP, hmax, _⟩ := bind_ok_inv h
      exact reqInt_ok hmax
    · obtain ⟨mf, hmf, s, hs⟩ := parseModel_ok hm
      exact ⟨mf, hmf ▸ require_ok hmj, s, hs⟩
    · refine ⟨kiElems, asArr_ok hke ▸ require_ok hkj, ?_⟩
      intro x hx
      obtain ⟨i, hi⟩ := mapM_ok_mem hki x hx
      obtain ⟨xf, hxf, h1, h2⟩ := parseInterface_ok hi
      exact ⟨xf, hxf, h1, h2⟩
    · refine ⟨connElems, asArr_ok hce ▸ require_ok hcj, ?_⟩
      intro x hx
      obtain ⟨c, hc⟩ := mapM_ok_mem hcs x hx
      obtain ⟨xf, hxf, s, hs⟩ := parseConnection_ok hc
      exact ⟨xf, hxf, s, hs⟩
    · refine ⟨propElems, asArr_ok hpe ▸ require_ok hpj, ?_⟩
      intro x hx
      obtain ⟨p, hp⟩ := mapM_ok_mem hps x hx
      obtain ⟨xf, hxf, h1, h2⟩ := parseProperty_ok hp
      exact ⟨xf, hxf, h1, h2⟩
  · intro ds j hmem hfail l hok
    obtain ⟨d, hd⟩ := mapM_ok_mem hok j hmem
    exact hfail d hd

/-- Witness for C6: the empty JSON object is missing every required field,
and a one-element list containing it fails to parse as a whole. -/
theorem parse_required_fields_spec_witness :
    (Json.obj [] ∈ [Json.obj []]) ∧
    ∀ l, ¬ parseDevices [Json.obj []] = Except.ok l := by
  refine ⟨List.mem_singleton.mpr rfl, ?_⟩
  refine parse_required_fields_spec.2 [Json.obj []] (Json.obj [])
    (List.mem_singleton.mpr rfl) ?_
  intro d h
  rw [show parse_device (Json.obj []) = Except.error "model: KeyError" from rfl] at h
  exact Except.noConfusion h

/-- Helper: `reqStr` succeeds on a present string field. -/
theorem reqStr_of {f : List (String × Json)} {k s : String}
    (h : getField f k = some (Json.str s)) : reqStr f k = Except.ok s := by
  unfold reqStr
  rw [h]

/-- Helper: `reqInt` succeeds on a present integer field. -/
theorem reqInt_of {f : List (String × Json)} {k : String} {n : Int}
    (h : getField f k = some (Json.int n)) : reqInt f k = Except.ok n := by
  unfold reqInt
  rw [h]

/-- Helper: `reqBool` succeeds on a present boolean field. -/
theorem reqBool_of {f : List (String × Json)} {k : String} {b : Bool}
    (h : getField f k = some (Json.bool b)) : reqBool f k = Except.ok b := by
  unfold reqBool
  rw [h]

/-- Helper: `reqUUID` succeeds on a present valid UUID string field. -/
theorem reqUUID_of {f : List (String × Json)} {k s : String}
    (h : getField f k = some (Json.str s)) (hv : isValidUUID s = true) :
    reqUUID f k = Except.ok s := by
  unfold reqUUID
  rw [h]
  simp [hv]

/-- Helper: `require` succeeds on a present field. -/
theorem require_of {f : List (String × Json)} {k : String} {j : Json}
    (h : getField f k = some j) : require f k = Except.ok j := by
  unfold require
  rw [h]

/-- Helper: `optStr` defaults to `none` on an absent field. -/
theorem optStr_of_none {f : List (String × Json)} {k : String}
    (h : getField f k = none) : optStr f k = Except.ok none := by
  unfold optStr
  rw [h]

/-- Helper: `optUUID` defaults to `none` on an absent field. -/
theorem optUUID_of_none {f : List (String × Json)} {k : String}
    (h : getField f k = none) : optUUID f k = Except.ok none := by
  unfold optUUID
  rw [h]

/-- Helper: `mapM` succeeds when every element parses, and the results keep a
pointwise property. -/
theorem mapM_ok_of {α β : Type} {g : α → Except String β} {P : β → Prop} :
    ∀ {l : List α}, (∀ a ∈ l, ∃ b, g a = Except.ok b ∧ P b) →
      ∃ bs, l.mapM g = Except.ok bs ∧ ∀ b ∈ bs, P b := by
  intro l
  induction l with
  | nil =>
      intro _
      exact ⟨[], by rw [List.mapM_nil]; rfl, fun b hb => absurd hb (List.not_mem_nil b)⟩
  | cons x xs ih =>
      intro h
      obtain ⟨b, hb, hPb⟩ := h x (List.mem_cons_self x xs)
      obtain ⟨bs, hbs, hPs⟩ := ih fun a ha => h a (List.mem_cons_of_mem x ha)
      refine ⟨b :: bs, ?_, ?_⟩
      · rw [List.mapM_cons, hb, ok_bind, hbs, ok_bind]
        rfl
      · intro c hc
        rcases List.mem_cons.mp hc with rfl | hc
        · exact hPb
        · exact hPs c hc

/-- Helper: `parseModel` on a record with `deviceType` present and every
optional field absent. -/
theorem parseModel_of {f : List (String × Json)} {dt : String}
    (h1 : getField f "deviceType" = some (Json.str dt))
    (h2 : getField f "manufacturer" = none)
    (h3 : getField f "modelNumber" = none)
    (h4 : getField f "hardwareVersion" = none)
    (h5 : getField f "description" = none) :
    parseModel (Json.obj f) = Except.ok
      { deviceType := dt, manufacturer := none, modelNumber := none,
        hardwareVersion := none, description := none } := by
  simp only [parseModel, asObj, ok_bind, reqStr_of h1, optStr_of_none h2,
    optStr_of_none h3, optStr_of_none h4, optStr_of_none h5]

/-- Helper: `parseUnit` on a record with every optional field absent. -/
theorem parseUnit_of {f : List (String × Json)}
    (h1 : getField f "serialNumber" = none)
    (h2 : getField f "firmwareVersion" = none)
    (h3 : getField f "firmwareDate" = none) :
    parseUnit (Json.obj f) = Except.ok
      { serialNumber := none, firmwareVersion := none, firmwareDate := none } := by
  simp only [parseUnit, asObj, ok_bind, optStr_of_none h1, optStr_of_none h2,
    optStr_of_none h3]

/-- Helper: `parseInterface` on a record with the required fields present and
`band` absent. -/
theorem parseInterface_of {f : List (String × Json)} {mac it : String}
    (h1 : getField f "macAddress" = some (Json.str mac))
    (h2 : getField f "interfaceType" = some (Json.str it))
    (h3 : getField f "band" = none) :
    parseInterface (Json.obj f) = Except.ok
      { macAddress := mac, interfaceType := it, band := none } := by
  simp only [parseInterface, asObj, ok_bind, reqStr_of h1, reqStr_of h2,
    optStr_of_none h3]

/-- Helper: `parseConnection` on a record with `macAddress` present and every
optional field absent. -/
theorem parseConnection_of {f : List (String × Json)} {mac : String}
    (h1 : getField f "macAddress" = some (Json.str mac))
    (h2 : getField f "ipAddress" = none)
    (h3 : getField f "ipv6Address" = none)
    (h4 : getField f "parentDeviceID" = none) :
    parseConnection (Json.obj f) = Except.ok
      { macAddress := mac, ipAddress := none, ipv6Address := none,
        parentDeviceID := none } := by
  simp only [parseConnection, asObj, ok_bind, reqStr_of h1, optStr_of_none h2,
    optStr_of_none h3, optUUID_of_none h4]

/-- Helper: `parseProperty` on a record with both required fields present. -/
theorem parseProperty_of {f : List (String × Json)} {nm vl : String}
    (h1 : getField f "name" = some (Json.str nm))
    (h2 : getField f "value" = some (Json.str vl)) :
    parseProperty (Json.obj f) = Except.ok { name := nm, value := vl } := by
  simp only [parseProperty, asObj, ok_bind, reqStr_of h1, reqStr_of h2]

/-- C7: a device record that supplies every required field with its declared
type and omits every optional field parses successfully, and every optional
field of the resulting device — `nodeType`, `friendlyName`, the optional
fields of `model` and `unit`, the `band` of each interface and the optional
fields of each connection — is absent. -/
theorem parse_optional_defaults_spec
    (fields mf uf : List (String × Json)) (kis cs ps : List Json)
    (idS dt : String) (rev maxP : Int) (auth : Bool)
    (hid : getField fields "deviceID" = some (Json.str idS))
    (hidv : isValidUUID idS = true)
    (hrev : getField fields "lastChangeRevision" = some (Json.int rev))
    (hauth : getField fields "isAuthority" = some (Json.bool auth))
    (hmax : getField fields "maxAllowedProperties" = some (Json.int maxP))
    (hnt : getField fields "nodeType" = none)
    (hfn : getField fields "friendlyName" = none)
    (hmodel : getField fields "model" = some (Json.obj mf))
    (hdt : getField mf "deviceType" = some (Json.str dt))
    (hman : getField mf "manufacturer" = none)
    (hmod : getField mf "modelNumber" = none)
    (hhw : getField mf "hardwareVersion" = none)
    (hdesc : getField mf "description" = none)
    (hunit : getField fields "unit" = some (Json.obj uf))
    (hser : getField uf "serialNumber" = none)
    (hfw : getField uf "firmwareVersion" = none)
    (hfd : getField uf "firmwareDate" = none)
    (hki : getField fields "knownInterfaces" = some (Json.arr kis))
    (hkis : ∀ x ∈ kis, ∃ xf mac it, x = Json.obj xf ∧
       getField xf "macAddress" = some (Json.str mac) ∧
       getField xf "interfaceType" = some (Json.str it) ∧
       getField xf "band" = none)
    (hconn : getField fields "connections" = some (Json.arr cs))
    (hcss : ∀ x ∈ cs, ∃ xf mac, x = Json.obj xf ∧
       getField xf "macAddress" = some (Json.str mac) ∧
       getField xf "ipAddress" = none ∧ getField xf "ipv6Address" = none ∧
       getField xf "parentDeviceID" = none)
    (hprop : getField fields "properties" = some (Json.arr ps))
    (hpss : ∀ x ∈ ps, ∃ xf nm vl, x = Json.obj xf ∧
       getField xf "name" = some (Json.str nm) ∧
       getField xf "value" = some (Json.str vl)) :
    ∃ d, parse_device (Json.obj fields) = Except.ok d ∧
      d.deviceID = idS ∧ d.lastChangeRevision = rev ∧ d.isAuthority = auth ∧
      d.maxAllowedProperties = maxP ∧ d.nodeType = none ∧ d.friendlyName = none ∧
      d.model = { deviceType := dt, manufacturer := none, modelNumber := none,
                  hardwareVersion := none, description := none } ∧
      d.unit = { serialNumber := none, firmwareVersion := none,
                 firmwareDate := none } ∧
      (∀ i ∈ d.knownInterfaces, i.band = none) ∧
      (∀ c ∈ d.connections,
        c.ipAddress = none ∧ c.ipv6Address = none ∧ c.parentDeviceID = none) := by
  have hkiM : ∃ bs, kis.mapM parseInterface = Except.ok bs ∧ ∀ i ∈ bs, i.band = none := by
    refine mapM_ok_of ?_
    intro x hx
    obtain ⟨xf, mac, it, hxf, h1, h2, h3⟩ := hkis x hx
    refine ⟨{ macAddress := mac, interfaceType := it, band := none }, ?_, rfl⟩
    rw [hxf]
    exact parseInterface_of h1 h2 h3
  have hcsM : ∃ bs, cs.mapM parseConnection = Except.ok bs ∧
      ∀ c ∈ bs, c.ipAddress = none ∧ c.ipv6Address = none ∧ c.parentDeviceID = none := by
    refine mapM_ok_of ?_
    intro x hx
    obtain ⟨xf, mac, hxf, h1, h2, h3, h4⟩ := hcss x hx
    refine ⟨{ macAddress := mac, ipAddress := none, ipv6Address := none,
              parentDeviceID := none }, ?_, rfl, rfl, rfl⟩
    rw [hxf]
    exact parseConnection_of h1 h2 h3 h4
  have hpsM : ∃ bs, ps.mapM parseProperty = Except.ok bs ∧ ∀ p ∈ bs, True := by
    refine mapM_ok_of ?_
    intro x hx
    obtain ⟨xf, nm, vl, hxf, h1, h2⟩ := hpss x hx
    refine ⟨{ name := nm, value := vl }, ?_, trivial⟩
    rw [hxf]
    exact parseProperty_of h1 h2
  obtain ⟨is, hisM, hisP⟩ := hkiM
  obtain ⟨csL, hcsM2, hcsP⟩ := hcsM
  obtain ⟨psL, hpsM2, _⟩ := hpsM
  refine ⟨{ deviceID := idS, lastChangeRevision := rev,
            model := { deviceType := dt, manufacturer := none, modelNumber := none,
                       hardwareVersion := none, description := none },
            unit := { serialNumber := none, firmwareVersion := none,
                      firmwareDate := none },
            isAuthority := auth, nodeType := none, friendlyName := none,
            knownInterfaces := is, connections := csL, properties := psL,
            maxAllowedProperties := maxP },
          ?_, rfl, rfl, rfl, rfl, rfl, rfl, rfl, rfl, hisP, hcsP⟩
  simp only [parse_device, asObj, ok_bind, require_of hmodel, require_of hunit,
    require_of hki, require_of hconn, require_of hprop,
    parseModel_of hdt hman hmod hhw hdesc, parseUnit_of hser hfw hfd,
    asArr, hisM, hcsM2, hpsM2, reqUUID_of hid hidv, reqInt_of hrev,
    reqBool_of hauth, optStr_of_none hnt, optStr_of_none hfn, reqInt_of hmax]

/-- Witness for C7 at a concrete record supplying exactly the required
fields. -/
theorem parse_optional_defaults_spec_witness :
    ∃ d, parse_device (Json.obj sampleDeviceFields) = Except.ok d ∧
      d.deviceID = "550e8400-e29b-41d4-a716-446655440000" ∧
      d.lastChangeRevision = 7 ∧ d.isAuthority = false ∧
      d.maxAllowedProperties = 16 ∧ d.nodeType = none ∧ d.friendlyName = none ∧
      d.model = { deviceType := "Computer", manufacturer := none, modelNumber := none,
                  hardwareVersion := none, description := none } ∧
      d.unit = { serialNumber := none, firmwareVersion := none,
                 firmwareDate := none } ∧
      (∀ i ∈ d.knownInterfaces, i.band = none) ∧
      (∀ c ∈ d.connections,
        c.ipAddress = none ∧ c.ipv6Address = none ∧ c.parentDeviceID = none) := by
  refine parse_optional_defaults_spec sampleDeviceFields
    [("deviceType", Json.str "Computer")] []
    [Json.obj [("macAddress", Json.str "AA:BB:CC:DD:EE:FF"),
               ("interfaceType", Json.str "Wireless")]]
    [Json.obj [("macAddress", Json.str "AA:BB:CC:DD:EE:FF")]]
    [Json.obj [("name", Json.str "userDeviceName"), ("value", Json.str "TV")]]
    "550e8400-e29b-41d4-a716-446655440000" "Computer" 7 16 false
    rfl (by decide) rfl rfl rfl rfl rfl rfl rfl rfl rfl rfl rfl rfl rfl rfl rfl rfl
    ?_ rfl ?_ rfl ?_
  · intro x hx
    rw [List.mem_singleton.mp hx]
    exact ⟨_, "AA:BB:CC:DD:EE:FF", "Wireless", rfl, rfl, rfl, rfl⟩
  · intro x hx
    rw [List.mem_singleton.mp hx]
    exact ⟨_, "AA:BB:CC:DD:EE:FF", rfl, rfl, rfl, rfl, rfl⟩
  · intro x hx
    rw [List.mem_singleton.mp hx]
    exact ⟨_, "userDeviceName", "TV", rfl, rfl, rfl⟩

/-- Helper: looking up a key skips an entry with a different key, wherever it
sits in the object. -/
theorem getField_skip (k : String) (v : Json) (key : String) (h : ¬ key = k) :
    ∀ (l1 l2 : List (String × Json)),
      getField (l1 ++ (k, v) :: l2) key = getField (l1 ++ l2) key := by
  intro l1 l2
  induction l1 with
  | nil =>
      have hb : (key == k) = false := beq_eq_false_iff_ne.mpr h
      simp [getField, List.lookup, hb]
  | cons p l1 ih =>
      obtain ⟨a, b⟩ := p
      cases hak : key == a with
      | true => simp [getField, List.lookup, hak]
      | false =>
          simp only [getField, List.cons_append, List.lookup, hak] at ih ⊢
          exact ih

/-- Helper: `reqStr` depends on the object only through the looked-up key. -/
theorem reqStr_congr {f1 f2 : List (String × Json)} {k : String}
    (h : getField f1 k = getField f2 k) : reqStr f1 k = reqStr f2 k := by
  unfold reqStr
  rw [h]

/-- Helper: `reqInt` depends on the object only through the looked-up key. -/
theorem reqInt_congr {f1 f2 : List (String × Json)} {k : String}
    (h : getField f1 k = getField f2 k) : reqInt f1 k = reqInt f2 k := by
  unfold reqInt
  rw [h]

/-- Helper: `reqBool` depends on the object only through the looked-up key. -/
theorem reqBool_congr {f1 f2 : List (String × Json)} {k : String}
    (h : getField f1 k = getField f2 k) : reqBool f1 k = reqBool f2 k := by
  unfold reqBool
  rw [h]

/-- Helper: `reqUUID` depends on the object only through the looked-up key. -/
theorem reqUUID_congr {f1 f2 : List (String × Json)} {k : String}
    (h : getField f1 k = getField f2 k) : reqUUID f1 k = reqUUID f2 k := by
  unfold reqUUID
  rw [h]

/-- Helper: `optStr` depends on the object only through the looked-up key. -/
theorem optStr_congr {f1 f2 : List (String × Json)} {k : String}
    (h : getField f1 k = getField f2 k) : optStr f1 k = optStr f2 k := by
  unfold optStr
  rw [h]

/-- Helper: `optUUID` depends on the object only through the looked-up key. -/
theorem optUUID_congr {f1 f2 : List (String × Json)} {k : String}
    (h : getField f1 k = getField f2 k) : optUUID f1 k = optUUID f2 k := by
  unfold optUUID
  rw [h]

/-- Helper: `require` depends on the object only through the looked-up key. -/
theorem require_congr {f1 f2 : List (String × Json)} {k : String}
    (h : getField f1 k = getField f2 k) : require f1 k = require f2 k := by
  unfold require
  rw [h]

/-- Helper: `parseModel` reads only the declared `Model` fields. -/
theorem parseModel_congr {f1 f2 : List (String × Json)}
    (h : ∀ key ∈ modelFieldKeys, getField f1 key = getField f2 key) :
    parseModel (Json.obj f1) = parseModel (Json.obj f2) := by
  simp only [parseModel, asObj, ok_bind,
    reqStr_congr (h "deviceType" (by simp [modelFieldKeys])),
    optStr_congr (h "manufacturer" (by simp [modelFieldKeys])),
    optStr_congr (h "modelNumber" (by simp [modelFieldKeys])),
    optStr_congr (h "hardwareVersion" (by simp [modelFieldKeys])),
    optStr_congr (h "description" (by simp [modelFieldKeys]))]

/-- Helper: `parseUnit` reads only the declared `Unit` fields. -/
theorem parseUnit_congr {f1 f2 : List (String × Json)}
    (h : ∀ key ∈ unitFieldKeys, getField f1 key = getField f2 key) :
    parseUnit (Json.obj f1) = parseUnit (Json.obj f2) := by
  simp only [parseUnit, asObj, ok_bind,
    optStr_congr (h "serialNumber" (by simp [unitFieldKeys])),
    optStr_congr (h "firmwareVersion" (by simp [unitFieldKeys])),
    optStr_congr (h "firmwareDate" (by simp [unitFieldKeys]))]

/-- Helper: `parseInterface` reads only the declared `Interface` fields. -/
theorem parseInterface_congr {f1 f2 : List (String × Json)}
    (h : ∀ key ∈ interfaceFieldKeys, getField f1 key = getField f2 key) :
    parseInterface (Json.obj f1) = parseInterface (Json.obj f2) := by
  simp only [parseInterface, asObj, ok_bind,
    reqStr_congr (h "macAddress" (by simp [interfaceFieldKeys])),
    reqStr_congr (h "interfaceType" (by simp [interfaceFieldKeys])),
    optStr_congr (h "band" (by simp [interfaceFieldKeys]))]

/-- Helper: `parseConnection` reads only the declared `Connection` fields. -/
theorem parseConnection_congr {f1 f2 : List (String × Json)}
    (h : ∀ key ∈ connectionFieldKeys, getField f1 key = getField f2 key) :
    parseConnection (Json.obj f1) = parseConnection (Json.obj f2) := by
  simp only [parseConnection, asObj, ok_bind,
    reqStr_congr (h "macAddress" (by simp [connectionFieldKeys])),
    optStr_congr (h "ipAddress" (by simp [connectionFieldKeys])),
    optStr_congr (h "ipv6Address" (by simp [connectionFieldKeys])),
    optUUID_congr (h "parentDeviceID" (by simp [connectionFieldKeys]))]

/-- Helper: `parseProperty` reads only the declared `Property` fields. -/
theorem parseProperty_congr {f1 f2 : List (String × Json)}
    (h : ∀ key ∈ propertyFieldKeys, getField f1 key = getField f2 key) :
    parseProperty (Json.obj f1) = parseProperty (Json.obj f2) := by
  simp only [parseProperty, asObj, ok_bind,
    reqStr_congr (h "name" (by simp [propertyFieldKeys])),
    reqStr_congr (h "value" (by simp [propertyFieldKeys]))]

/-- Helper: `parse_device` reads only the declared `Device` fields. -/
theorem parse_device_congr {f1 f2 : List (String × Json)}
    (h : ∀ key ∈ deviceFieldKeys, getField f1 key = getField f2 key) :
    parse_device (Json.obj f1) = parse_device (Json.obj f2) := by
  simp only [parse_device, asObj, ok_bind,
    require_congr (h "model" (by simp [deviceFieldKeys])),
    require_congr (h "unit" (by simp [deviceFieldKeys])),
    require_congr (h "knownInterfaces" (by simp [deviceFieldKeys])),
    require_congr (h "connections" (by simp [deviceFieldKeys])),
    require_congr (h "properties" (by simp [deviceFieldKeys])),
    reqUUID_congr (h "deviceID" (by simp [deviceFieldKeys])),
    reqInt_congr (h "lastChangeRevision" (by simp [deviceFieldKeys])),
    reqBool_congr (h "isAuthority" (by simp [deviceFieldKeys])),
    optStr_congr (h "nodeType" (by simp [deviceFieldKeys])),
    optStr_congr (h "friendlyName" (by simp [deviceFieldKeys])),
    reqInt_congr (h "maxAllowedProperties" (by simp [deviceFieldKeys]))]

/-- C8: an additional field with an unknown key — at the top level of the
device record or inside a `model`, `unit`, interface, connection or property
record, at any position — does not change the parse result: parsing succeeds
exactly as without it and the unknown field leaves no trace in the resulting
`Device`. -/
theorem parse_ignores_unknown_fields :
    (∀ (k : String) (v : Json) (l1 l2 : List (String × Json)), ¬ k ∈ deviceFieldKeys →
       parse_device (Json.obj (l1 ++ (k, v) :: l2)) = parse_device (Json.obj (l1 ++ l2))) ∧
    (∀ (k : String) (v : Json) (l1 l2 : List (String × Json)), ¬ k ∈ modelFieldKeys →
       parseModel (Json.obj (l1 ++ (k, v) :: l2)) = parseModel (Json.obj (l1 ++ l2))) ∧
    (∀ (k : String) (v : Json) (l1 l2 : List (String × Json)), ¬ k ∈ unitFieldKeys →
       parseUnit (Json.obj (l1 ++ (k, v) :: l2)) = parseUnit (Json.obj (l1 ++ l2))) ∧
    (∀ (k : String) (v : Json) (l1 l2 : List (String × Json)), ¬ k ∈ interfaceFieldKeys →
       parseInterface (Json.obj (l1 ++ (k, v) :: l2)) = parseInterface (Json.obj (l1 ++ l2))) ∧
    (∀ (k : String) (v : Json) (l1 l2 : List (String × Json)), ¬ k ∈ connectionFieldKeys →
       parseConnection (Json.obj (l1 ++ (k, v) :: l2)) = parseConnection (Json.obj (l1 ++ l2))) ∧
    (∀ (k : String) (v : Json) (l1 l2 : List (String × Json)), ¬ k ∈ propertyFieldKeys →
       parseProperty (Json.obj (l1 ++ (k, v) :: l2)) = parseProperty (Json.obj (l1 ++ l2))) := by
  refine ⟨?_, ?_, ?_, ?_, ?_, ?_⟩ <;>
    intro k v l1 l2 hk
  · refine parse_device_congr fun key hkey => getField_skip k v key ?_ l1 l2
    intro he
    exact hk (he ▸ hkey)
  · refine parseModel_congr fun key hkey => getField_skip k v key ?_ l1 l2
    intro he
    exact hk (he ▸ hkey)
  · refine parseUnit_congr fun key hkey => getField_skip k v key ?_ l1 l2
    intro he
    exact hk (he ▸ hkey)
  · refine parseInterface_congr fun key hkey => getField_skip k v key ?_ l1 l2
    intro he
    exact hk (he ▸ hkey)
  · refine parseConnection_congr fun key hkey => getField_skip k v key ?_ l1 l2
    intro he
    exact hk (he ▸ hkey)
  · refine parseProperty_congr fun key hkey => getField_skip k v key ?_ l1 l2
    intro he
    exact hk (he ▸ hkey)

/-- Witness for C8: an extra `routerColor` field at the front of the sample
device record does not change the parse result. -/
theorem parse_ignores_unknown_fields_witness :
    (¬ "routerColor" ∈ deviceFieldKeys) ∧
    parse_device (Json.obj (("routerColor", Json.str "black") :: sampleDeviceFields))
      = parse_device (Json.obj sampleDeviceFields) :=
  ⟨by decide,
   parse_ignores_unknown_fields.1 "routerColor" (Json.str "black") [] sampleDeviceFields
     (by decide)⟩

end LinksysMon
